import Mathlib

/-!
Verification of the diagnosis aggregation and plausibility-filtering core of
the autodecx backend (`diagnostic_engine.py`, `ai_diagnostics.py`).

Texts are modelled as `String`; all the substring tests of the source operate
on lower-cased text, which we model on lists of character codes (the source
data is ASCII, where Python `str.lower` agrees with the ASCII lowering below).
Python floats are modelled as rationals; Python `round(x, 2)` (round-half-even
on binary floats) is modelled by rounding `100*x` to an integer, which agrees
with it away from exact ties and is immaterial to every property proved here.
-/

/-- ASCII lowering on a character code, as Python `str.lower` acts on the
ASCII source data. -/
def lowCode (c : Char) : Nat :=
  if 65 ≤ c.toNat ∧ c.toNat ≤ 90 then c.toNat + 32 else c.toNat

/-- Character codes of a string, lower-cased (model of `text.lower()`). -/
def lowerCodes (s : String) : List Nat := s.toList.map lowCode

/-- Character codes of a string as written. -/
def rawCodes (s : String) : List Nat := s.toList.map Char.toNat

/-- Whether the first list is an initial segment of the second. -/
def isPre : List Nat → List Nat → Bool
  | [], _ => true
  | _ :: _, [] => false
  | a :: as, b :: bs => a == b && isPre as bs

/-- Whether the first list occurs contiguously inside the second
(model of Python `needle in hay`). -/
def isSub : List Nat → List Nat → Bool
  | n, [] => isPre n []
  | n, b :: bs => isPre n (b :: bs) || isSub n bs

/-- The closed diagnostic vocabulary of `DiagnosisAggregator.extract_keywords`. -/
def vocab : List String :=
  ["brake", "brakes", "pad", "pads", "rotor", "rotors", "caliper",
   "bearing", "bearings", "wheel bearing", "hub bearing",
   "belt", "serpentine", "serpentine belt", "timing belt", "timing chain",
   "exhaust", "muffler", "catalytic converter", "manifold",
   "suspension", "shock", "shocks", "strut", "struts", "strut mount",
   "engine", "motor", "piston", "cylinder",
   "transmission", "gearbox", "clutch",
   "turbo", "turbocharger", "wastegate", "boost",
   "alternator", "starter", "battery",
   "pulley", "idler", "tensioner", "timing chain tensioner",
   "mount", "engine mount", "motor mount", "transmission mount",
   "cv joint", "cv axle", "axle", "driveshaft",
   "tire", "tires", "wheel",
   "leak", "leaking", "fluid",
   "worn", "wear", "damage", "damaged",
   "loose", "broken", "cracked",
   "misfire", "ignition", "spark plug", "coil",
   "sway bar", "ball joint", "tie rod", "control arm",
   "power steering", "rack and pinion", "steering",
   "vanos", "variable valve timing", "vvt"]

/-- `DiagnosisAggregator.extract_keywords`: every vocabulary term occurring as
a substring of the lower-cased text, in vocabulary scan order; empty text
yields the empty list. -/
def extract_keywords (text : String) : List String :=
  if text.toList.isEmpty then []
  else vocab.filter fun k => isSub (rawCodes k) (lowerCodes text)

/-- `VehicleSpecificationChecker.TURBO_MODELS`: the fixed per-manufacturer
known-turbo-model table. -/
def TURBO_MODELS : List (String × List String) :=
  [("BMW", ["335i", "535i", "M235i", "M135i", "340i", "440i", "X3 28i", "X5 35i"]),
   ("Audi", ["A3", "A4", "A6", "Q5", "TT", "S3", "S4", "S5"]),
   ("Mercedes-Benz", ["C250", "C300", "E250", "GLC250", "CLA250", "AMG"]),
   ("Volkswagen", ["GTI", "Golf R", "Jetta GLI", "Tiguan", "Passat"]),
   ("Ford", ["EcoBoost", "Mustang", "F-150", "Explorer"]),
   ("Toyota", []),
   ("Honda", ["Civic Type R", "Accord 2.0T"]),
   ("Mazda", ["CX-7", "CX-9", "MazdaSpeed"]),
   ("Hyundai", ["Veloster N", "Sonata 2.0T", "Santa Fe"]),
   ("Nissan", ["Juke", "Sentra", "Altima"])]

/-- The loop over `TURBO_MODELS[manufacturer]` in `has_turbo`: some table
entry for the manufacturer occurs (case-insensitively) in the model name;
false when the manufacturer has no table row. -/
def modelTableHit (manufacturer model : String) : Bool :=
  match List.lookup manufacturer TURBO_MODELS with
  | some ml => ml.any fun tm => isSub (lowerCodes tm) (lowerCodes model)
  | none => false

/-- The generic-keyword loop of `has_turbo`. -/
def genericTurboHit (model : String) : Bool :=
  ["turbo", "tsi", "tfsi", "ecoboost", "tdi", "gti"].any fun k =>
    isSub (rawCodes k) (lowerCodes model)

/-- `VehicleSpecificationChecker.has_turbo`.  The source tests `year >= 2016`
and then manufacturer membership, returning True only when both hold and
otherwise falling through to the table scan and the generic keywords. -/
def has_turbo (manufacturer model : String) (year : Int) : Bool :=
  if decide (2016 ≤ year) && (["BMW", "Audi", "Mercedes-Benz", "Volkswagen"].contains manufacturer)
  then true
  else if modelTableHit manufacturer model then true
  else genericTurboHit model

/-- `VehicleSpecificationChecker.has_diesel` (manufacturer and year are
accepted and ignored, as in the source). -/
def has_diesel (_manufacturer model : String) (_year : Int) : Bool :=
  ["diesel", "tdi", "d", "dci", "hdi", "crdi"].any fun k =>
    isSub (rawCodes k) (lowerCodes model)

/-- `VehicleSpecificationChecker.filter_diagnosis`: reject turbo-flavoured
diagnoses on non-turbo vehicles and diesel-flavoured ones on non-diesel
vehicles. -/
def filter_diagnosis (diagnosis manufacturer model : String) (year : Int) : Bool :=
  let turboIssue :=
    ["turbo", "wastegate", "boost", "supercharger"].any fun k =>
      isSub (rawCodes k) (lowerCodes diagnosis)
  if turboIssue && !(has_turbo manufacturer model year) then false
  else
    let dieselIssue :=
      ["diesel", "dpf", "def", "egr"].any fun k =>
        isSub (rawCodes k) (lowerCodes diagnosis)
    if dieselIssue && !(has_diesel manufacturer model year) then false
    else true

/-- A vehicle profile, as read out of the `vehicle_info` dict by
`aggregate_diagnoses`. -/
structure VehicleInfo where
  manufacturer : String
  model : String
  year : Int
deriving DecidableEq

/-- The inputs of `DiagnosisAggregator.aggregate_diagnoses`; every field
defaults to absent, as in the source. -/
structure AggInput where
  youtube_titles : Option (List String) := none
  youtube_descriptions : Option (List String) := none
  youtube_comments : Option (List String) := none
  youtube_transcripts : Option (List String) := none
  spectrogram_match : Option String := none
  ai_diagnosis : Option String := none
  vehicle_info : Option VehicleInfo := none
deriving DecidableEq

/-- The result dict of `aggregate_diagnoses`; on the sentinel path the Python
dict carries no `keyword_counts` key, modelled by `none`. -/
structure DiagnosisResult where
  diagnosis : String
  confidence : ℚ
  sources : List String
  keywords : List String
  keyword_counts : Option (List (String × Nat))
deriving DecidableEq

/-- An absent collection contributes like an empty one. -/
def optTexts : Option (List String) → List String
  | none => []
  | some l => l

/-- Python truthiness of an optional list (`if youtube_titles:`). -/
def truthyTexts : Option (List String) → Bool
  | none => false
  | some l => !l.isEmpty

/-- Python truthiness of an optional string (`if spectrogram_match:`). -/
def truthyStr : Option String → Bool
  | none => false
  | some s => !s.toList.isEmpty

/-- Weight-1 keyword contribution of one collection: the concatenated
extractions, in collection order. -/
def kwContrib (texts : List String) : List String :=
  texts.flatMap extract_keywords

/-- Weight-2 keyword contribution of an optional single string
(`all_keywords.extend(keywords * 2)`). -/
def doubleKw : Option String → List String
  | none => []
  | some s => if s.toList.isEmpty then [] else extract_keywords s ++ extract_keywords s

/-- The flat `all_keywords` list accumulated by `aggregate_diagnoses`, in the
fixed processing order: titles, descriptions, comments, transcripts,
spectrogram match, AI diagnosis. -/
def allKeywords (i : AggInput) : List String :=
  kwContrib (optTexts i.youtube_titles) ++ kwContrib (optTexts i.youtube_descriptions)
    ++ kwContrib (optTexts i.youtube_comments) ++ kwContrib (optTexts i.youtube_transcripts)
    ++ doubleKw i.spectrogram_match ++ doubleKw i.ai_diagnosis

/-- The weighted tally of one keyword: its number of occurrences in the flat
`all_keywords` list (what `Counter(all_keywords)[k]` holds). -/
def weightedTally (i : AggInput) (k : String) : Nat :=
  (allKeywords i).count k

/-- The `sources` audit list, one entry per truthy source, in processing
order. -/
def sourcesList (i : AggInput) : List String :=
  (if truthyTexts i.youtube_titles then
    ["YouTube titles (" ++ toString (optTexts i.youtube_titles).length ++ ")"] else [])
  ++ (if truthyTexts i.youtube_descriptions then
    ["YouTube descriptions (" ++ toString (optTexts i.youtube_descriptions).length ++ ")"] else [])
  ++ (if truthyTexts i.youtube_comments then
    ["YouTube comments (" ++ toString (optTexts i.youtube_comments).length ++ ")"] else [])
  ++ (if truthyTexts i.youtube_transcripts then
    ["YouTube transcripts (" ++ toString (optTexts i.youtube_transcripts).length ++ ")"] else [])
  ++ (if truthyStr i.spectrogram_match then ["Spectrogram match"] else [])
  ++ (if truthyStr i.ai_diagnosis then ["AI analysis"] else [])

/-- First-seen order of the distinct elements of a list: the key order of a
Python `Counter` built by counting the list. -/
def insertionOrderAux : List String → List String → List String
  | acc, [] => acc
  | acc, a :: l => insertionOrderAux (if a ∈ acc then acc else acc ++ [a]) l

/-- First-seen order of the distinct elements of a list. -/
def insertionOrder (l : List String) : List String := insertionOrderAux [] l

/-- The `(keyword, count)` items of `Counter(all_keywords)`, in first-seen
key order. -/
def counterItems (l : List String) : List (String × Nat) :=
  (insertionOrder l).map fun k => (k, l.count k)

/-- `Counter.most_common(n)`: the first `n` items of a stable sort of the
counter items by descending count (Python `heapq.nlargest` is stable, like
`sorted(..., reverse=True)`), ties kept in first-seen order. -/
def mostCommon (n : Nat) (l : List String) : List (String × Nat) :=
  (List.insertionSort (fun a b : String × Nat => b.2 ≤ a.2) (counterItems l)).take n

/-- The candidate list after the vehicle-plausibility step of
`aggregate_diagnoses`: the top-5 items, replaced by their filtered sublist
when that sublist is non-empty. -/
def rankedKeywords (i : AggInput) : List (String × Nat) :=
  let mc := mostCommon 5 (allKeywords i)
  match i.vehicle_info with
  | none => mc
  | some v =>
      let filtered :=
        mc.filter fun p => filter_diagnosis (p.1 ++ " issue") v.manufacturer v.model v.year
      if filtered.isEmpty then mc else filtered

/-- `total_mentions`: the sum of the counts over all counter items. -/
def totalMentions (i : AggInput) : Nat :=
  ((counterItems (allKeywords i)).map Prod.snd).sum

/-- Rounding to two decimal places (model of Python `round(x, 2)`). -/
def round2 (q : ℚ) : ℚ := ((round (q * 100) : ℤ) : ℚ) / 100

/-- The secondary-issue condition of `aggregate_diagnoses`:
`second_count >= top_count * 0.6`. -/
def secondAtLeast60 (top second : Nat) : Prop :=
  (second : ℚ) ≥ (top : ℚ) * 0.6

instance (top second : Nat) : Decidable (secondAtLeast60 top second) :=
  decidable_of_iff (6 * top ≤ 10 * second) (by
    unfold secondAtLeast60
    rw [ge_iff_le, show (0.6 : ℚ) = 6 / 10 by norm_num]
    constructor
    · intro h
      have h2 : ((6 * top : ℕ) : ℚ) ≤ ((10 * second : ℕ) : ℚ) := by exact_mod_cast h
      push_cast at h2
      linarith
    · intro h
      have h2 : ((6 * top : ℕ) : ℚ) ≤ ((10 * second : ℕ) : ℚ) := by push_cast; linarith
      exact_mod_cast h2)

/-- `DiagnosisAggregator.aggregate_diagnoses`. -/
def aggregate_diagnoses (i : AggInput) : DiagnosisResult :=
  if (allKeywords i).isEmpty then
    { diagnosis := "Unable to determine issue - insufficient data"
      confidence := 0.3
      sources := sourcesList i
      keywords := []
      keyword_counts := none }
  else
    let mc := rankedKeywords i
    let top := mc.headD ("", 0)
    let confidence : ℚ :=
      min 0.95 (((top.2 : ℚ) / (totalMentions i : ℚ)) * 1.2)
    let diagnosis :=
      if 1 < mc.length then
        let second := mc.getD 1 ("", 0)
        if secondAtLeast60 top.2 second.2 then
          "Likely " ++ top.1 ++ " or " ++ second.1 ++ " issue detected"
        else
          "Likely " ++ top.1 ++ " issue detected"
      else
        "Likely " ++ top.1 ++ " issue detected"
    { diagnosis := diagnosis
      confidence := round2 confidence
      sources := sourcesList i
      keywords := mc.map Prod.fst
      keyword_counts := some mc }

def exBrakeEngine : AggInput := { youtube_titles := some ["brake", "engine"] }

def exEngineBrake : AggInput := { youtube_titles := some ["engine", "brake"] }

def exNoKeyword : AggInput := { youtube_titles := some ["zzz qqq"] }

def exTurboCorolla : AggInput :=
  { youtube_titles := some ["turbo rattle"]
    vehicle_info := some { manufacturer := "Toyota", model := "Corolla", year := 2015 } }

def exBrakeBrakeEngine : AggInput := { youtube_titles := some ["brake", "brake", "engine"] }

def exEmpty : AggInput := {}

def exTurboNoVehicle : AggInput := { youtube_titles := some ["turbo rattle", "turbo noise"] }

def exRatio60 : AggInput :=
  { youtube_titles :=
      some ["brake", "brake", "brake", "brake", "brake", "engine", "engine", "engine"] }

def exRatio59 : AggInput :=
  { youtube_titles := some (List.replicate 100 "brake" ++ List.replicate 59 "engine") }

def exBase : AggInput := {}

/-- Audio analysis metrics, as read by
`AIDiagnosticEngine._calculate_comprehensive_confidence` (missing dict keys
default to 0). -/
structure AudioFeatures where
  rms_energy : ℚ := 0
  zero_crossing_rate : ℚ := 0
deriving DecidableEq

/-- The best acoustic match record (missing `similarity` defaults to 0). -/
structure BestMatch where
  similarity : ℚ := 0
deriving DecidableEq

/-- The YouTube data bundle, with the fields the confidence scorer reads. -/
structure YoutubeData where
  titles : List String := []
  comments : List String := []
  transcripts : List String := []
  best_match : Option BestMatch := none
deriving DecidableEq

/-- The user context bundle: a free-text description and structured
occurrence tags (a list joined for display elsewhere); Python truthiness is
non-emptiness. -/
structure EnhancedContext where
  audio_description : String := ""
  occurrence : List String := []
deriving DecidableEq

/-- The `if audio_features:` block of `_calculate_comprehensive_confidence`:
the two conditional +5 increments on the running confidence. -/
def audioStep (c : Nat) : Option AudioFeatures → Nat
  | none => c
  | some af =>
      let c := if (0.05 : ℚ) < af.rms_energy then c + 5 else c
      if (0.05 : ℚ) < af.zero_crossing_rate ∧ af.zero_crossing_rate < (0.4 : ℚ) then c + 5
      else c

/-- The `if youtube_data:` block of `_calculate_comprehensive_confidence`:
the tiered video bonus, the comments and transcripts bonuses, and the
similarity-tier bonus. -/
def youtubeStep (c : Nat) : Option YoutubeData → Nat
  | none => c
  | some yd =>
      let numVideos := yd.titles.length
      let c := if 10 ≤ numVideos then c + 10
        else if 5 ≤ numVideos then c + 7
        else if 1 ≤ numVideos then c + 3
        else c
      let c := if yd.comments.isEmpty then c else c + 3
      let c := if yd.transcripts.isEmpty then c else c + 3
      match yd.best_match with
      | none => c
      | some bm =>
          if (0.7 : ℚ) < bm.similarity then c + 5
          else if (0.5 : ℚ) < bm.similarity then c + 3
          else c

/-- The `if enhanced_context:` block of `_calculate_comprehensive_confidence`:
the description and occurrence bonuses. -/
def contextStep (c : Nat) : Option EnhancedContext → Nat
  | none => c
  | some ec =>
      let c := if ec.audio_description.toList.isEmpty then c else c + 3
      if ec.occurrence.isEmpty then c else c + 2

/-- `AIDiagnosticEngine._calculate_comprehensive_confidence`: the source runs
the three blocks in order over a base of 70 and returns
`min(confidence, 95)`. -/
def calculate_comprehensive_confidence (audio_features : Option AudioFeatures)
    (youtube_data : Option YoutubeData) (enhanced_context : Option EnhancedContext) : Nat :=
  min (contextStep (youtubeStep (audioStep 70 audio_features) youtube_data) enhanced_context) 95

/-- Spec-side bonus: +5 if the acoustic energy exceeds the minimum
threshold. -/
def energyBonus : Option AudioFeatures → Nat
  | none => 0
  | some af => if (0.05 : ℚ) < af.rms_energy then 5 else 0

/-- Spec-side bonus: +5 if the zero-crossing rate falls in the normal
band. -/
def zcrBonus : Option AudioFeatures → Nat
  | none => 0
  | some af =>
      if (0.05 : ℚ) < af.zero_crossing_rate ∧ af.zero_crossing_rate < (0.4 : ℚ) then 5 else 0

/-- Spec-side tiered video-count bonus: +10 for at least 10 videos, +7 for at
least 5, +3 for at least 1. -/
def videoBonus : Option YoutubeData → Nat
  | none => 0
  | some yd =>
      if 10 ≤ yd.titles.length then 10
      else if 5 ≤ yd.titles.length then 7
      else if 1 ≤ yd.titles.length then 3
      else 0

/-- Spec-side bonus: +3 if comments are present. -/
def commentsBonus : Option YoutubeData → Nat
  | none => 0
  | some yd => if yd.comments.isEmpty then 0 else 3

/-- Spec-side bonus: +3 if transcripts are present. -/
def transcriptsBonus : Option YoutubeData → Nat
  | none => 0
  | some yd => if yd.transcripts.isEmpty then 0 else 3

/-- Spec-side similarity bonus: +5 above 0.7, else +3 above 0.5. -/
def similarityBonus : Option YoutubeData → Nat
  | none => 0
  | some yd =>
      match yd.best_match with
      | none => 0
      | some bm =>
          if (0.7 : ℚ) < bm.similarity then 5
          else if (0.5 : ℚ) < bm.similarity then 3
          else 0

/-- Spec-side bonus: +3 for a user free-text description. -/
def descriptionBonus : Option EnhancedContext → Nat
  | none => 0
  | some ec => if ec.audio_description.toList.isEmpty then 0 else 3

/-- Spec-side bonus: +2 for structured occurrence context. -/
def occurrenceBonus : Option EnhancedContext → Nat
  | none => 0
  | some ec => if ec.occurrence.isEmpty then 0 else 2

/-- The standalone language-model-path confidence as the claim states it:
base 70 plus the independent bonuses, capped at 95. -/
def comprehensiveConfidenceSpec (audio_features : Option AudioFeatures)
    (youtube_data : Option YoutubeData) (enhanced_context : Option EnhancedContext) : Nat :=
  min 95 (70 + energyBonus audio_features + zcrBonus audio_features
    + videoBonus youtube_data + commentsBonus youtube_data + transcriptsBonus youtube_data
    + similarityBonus youtube_data
    + descriptionBonus enhanced_context + occurrenceBonus enhanced_context)


example : extract_keywords "My brake pads squeal" = ["brake", "pad", "pads"] := by decide
example : extract_keywords "" = [] := by decide
example : has_turbo "Toyota" "Corolla" 2015 = false := by decide
example : has_turbo "BMW" "320d" 2018 = true := by decide
example : has_turbo "Honda" "Civic Type R" 2015 = true := by decide
example : has_turbo "Kia" "Stinger GT Turbo" 2014 = true := by decide
example : filter_diagnosis "turbo issue" "Toyota" "Corolla" 2015 = false := by decide
example : filter_diagnosis "brake issue" "Toyota" "Corolla" 2015 = true := by decide

example : (aggregate_diagnoses exBrakeEngine).diagnosis
    = "Likely brake or engine issue detected" := by decide
example : (aggregate_diagnoses exEngineBrake).diagnosis
    = "Likely engine or brake issue detected" := by decide
example : (aggregate_diagnoses exNoKeyword).sources = ["YouTube titles (1)"] := by decide
example : (aggregate_diagnoses exTurboCorolla).keywords = ["turbo"] := by decide
example : (aggregate_diagnoses exTurboNoVehicle).keywords = ["turbo"] := by decide
example : (aggregate_diagnoses exBrakeBrakeEngine).confidence = 0.8 := by
  have h1 : rankedKeywords exBrakeBrakeEngine = [("brake", 2), ("engine", 1)] := by decide
  have h2 : totalMentions exBrakeBrakeEngine = 3 := by decide
  have h3 : (allKeywords exBrakeBrakeEngine).isEmpty = false := by decide
  simp only [aggregate_diagnoses, h1, h2, h3, Bool.false_eq_true, if_false, round2]
  norm_num [round_eq]


/-! Helper lemmas. -/

theorem round_mono_rat {x y : ℚ} (h : x ≤ y) : round x ≤ round y := by
  rw [round_eq, round_eq]
  exact Int.floor_mono (by linarith)

theorem round2_nonneg {q : ℚ} (h : 0 ≤ q) : 0 ≤ round2 q := by
  unfold round2
  have h1 : round ((0 : ℚ)) ≤ round (q * 100) := round_mono_rat (by linarith)
  have h2 : round ((0 : ℚ)) = 0 := by norm_num [round_eq]
  rw [h2] at h1
  have h3 : (0 : ℚ) ≤ ((round (q * 100) : ℤ) : ℚ) := by exact_mod_cast h1
  linarith

theorem round2_le_095 {q : ℚ} (h : q ≤ 0.95) : round2 q ≤ 0.95 := by
  unfold round2
  have h1 : round (q * 100) ≤ round ((95 : ℚ)) := round_mono_rat (by linarith)
  have h2 : round ((95 : ℚ)) = 95 := by norm_num [round_eq]
  rw [h2] at h1
  have h3 : ((round (q * 100) : ℤ) : ℚ) ≤ 95 := by exact_mod_cast h1
  rw [show (0.95 : ℚ) = 95 / 100 by norm_num]
  linarith

theorem mem_insertionOrderAux {k : String} :
    ∀ (l acc : List String), k ∈ insertionOrderAux acc l ↔ k ∈ acc ∨ k ∈ l := by
  intro l
  induction l with
  | nil => intro acc; simp [insertionOrderAux]
  | cons a l ih =>
      intro acc
      show k ∈ insertionOrderAux (if a ∈ acc then acc else acc ++ [a]) l ↔ _
      rw [ih]
      by_cases hc : a ∈ acc
      · simp only [hc, if_true, List.mem_cons]
        constructor
        · rintro (h | h)
          · exact Or.inl h
          · exact Or.inr (Or.inr h)
        · rintro (h | h | h)
          · exact Or.inl h
          · exact Or.inl (h ▸ hc)
          · exact Or.inr h
      · simp only [hc, if_false, List.mem_append, List.mem_singleton, List.mem_cons]
        tauto

theorem mem_insertionOrder {k : String} {l : List String} :
    k ∈ insertionOrder l ↔ k ∈ l := by
  unfold insertionOrder
  rw [mem_insertionOrderAux]
  simp

theorem insertionOrderAux_ne_nil (l : List String) :
    ∀ acc : List String, acc ≠ [] → insertionOrderAux acc l ≠ [] := by
  induction l with
  | nil => intro acc h; simpa [insertionOrderAux] using h
  | cons a l ih =>
      intro acc h
      show insertionOrderAux (if a ∈ acc then acc else acc ++ [a]) l ≠ []
      apply ih
      by_cases hc : a ∈ acc
      · simpa [hc] using h
      · simp [hc]

theorem insertionOrder_ne_nil {l : List String} (h : l ≠ []) : insertionOrder l ≠ [] := by
  cases l with
  | nil => exact absurd rfl h
  | cons a l =>
      show insertionOrderAux (if a ∈ ([] : List String) then [] else [] ++ [a]) l ≠ []
      simp only [List.not_mem_nil, if_false, List.nil_append]
      exact insertionOrderAux_ne_nil l [a] (by simp)

theorem counterItems_ne_nil {l : List String} (h : l ≠ []) : counterItems l ≠ [] := by
  unfold counterItems
  simp only [ne_eq, List.map_eq_nil_iff]
  exact insertionOrder_ne_nil h

theorem mostCommon_ne_nil {l : List String} (h : l ≠ []) : mostCommon 5 l ≠ [] := by
  unfold mostCommon
  intro hnil
  have hlen := congrArg List.length hnil
  rw [List.length_take, List.length_insertionSort] at hlen
  have hpos : 0 < (counterItems l).length := List.length_pos.mpr (counterItems_ne_nil h)
  simp only [List.length_nil] at hlen
  omega

theorem rankedKeywords_ne_nil {i : AggInput} (h : allKeywords i ≠ []) :
    rankedKeywords i ≠ [] := by
  unfold rankedKeywords
  cases hv : i.vehicle_info with
  | none => exact mostCommon_ne_nil h
  | some v =>
      simp only
      by_cases hf :
          ((mostCommon 5 (allKeywords i)).filter fun p =>
            filter_diagnosis (p.1 ++ " issue") v.manufacturer v.model v.year).isEmpty
      · simpa [hf] using mostCommon_ne_nil h
      · simp only [hf, if_false]
        simpa [List.isEmpty_iff] using hf

theorem one_le_totalMentions {i : AggInput} (h : allKeywords i ≠ []) :
    1 ≤ totalMentions i := by
  obtain ⟨a, l, hl⟩ : ∃ a l, allKeywords i = a :: l := by
    cases hal : allKeywords i with
    | nil => exact absurd hal h
    | cons a l => exact ⟨a, l, rfl⟩
  have ha : a ∈ allKeywords i := by rw [hl]; exact List.mem_cons_self a l
  have hio : a ∈ insertionOrder (allKeywords i) := mem_insertionOrder.mpr ha
  have hcount : 1 ≤ (allKeywords i).count a := List.count_pos_iff.mpr ha
  have hmem : (allKeywords i).count a ∈ (counterItems (allKeywords i)).map Prod.snd := by
    unfold counterItems
    rw [List.map_map]
    exact List.mem_map_of_mem _ hio
  calc 1 ≤ (allKeywords i).count a := hcount
    _ ≤ ((counterItems (allKeywords i)).map Prod.snd).sum :=
        List.single_le_sum (fun x _ => Nat.zero_le x) _ hmem

theorem isEmpty_false_of_ne_nil {l : List String} (h : l ≠ []) : l.isEmpty = false := by
  simpa [List.isEmpty_iff] using h

/-- C1: for every valid input, the confidence of the returned result lies in
[0, 0.95]; it equals 0.3 on the sentinel path and, on the aggregation path,
min(0.95, (weighted count of the top candidate / total weighted mentions over
all keywords) * 1.2) rounded to two decimals. -/
theorem C1_confidence_in_range (i : AggInput) :
    0 ≤ (aggregate_diagnoses i).confidence ∧
    (aggregate_diagnoses i).confidence ≤ 0.95 ∧
    (aggregate_diagnoses i).confidence =
      (if allKeywords i = [] then (0.3 : ℚ)
       else round2 (min 0.95
        ((((rankedKeywords i).headD ("", 0)).2 : ℚ) / (totalMentions i : ℚ) * 1.2))) := by
  by_cases h : allKeywords i = []
  · have hb : (allKeywords i).isEmpty = true := by simp [h]
    refine ⟨?_, ?_, ?_⟩
    · simp only [aggregate_diagnoses, hb, if_true]
      norm_num
    · simp only [aggregate_diagnoses, hb, if_true]
      norm_num
    · simp [aggregate_diagnoses, hb, h]
  · have hb : (allKeywords i).isEmpty = false := isEmpty_false_of_ne_nil h
    have hconf : (aggregate_diagnoses i).confidence =
        round2 (min 0.95
          ((((rankedKeywords i).headD ("", 0)).2 : ℚ) / (totalMentions i : ℚ) * 1.2)) := by
      simp [aggregate_diagnoses, hb]
    have hx0 : (0 : ℚ) ≤
        (((rankedKeywords i).headD ("", 0)).2 : ℚ) / (totalMentions i : ℚ) * 1.2 := by
      positivity
    have hmin0 : (0 : ℚ) ≤ min 0.95
        ((((rankedKeywords i).headD ("", 0)).2 : ℚ) / (totalMentions i : ℚ) * 1.2) :=
      le_min (by norm_num) hx0
    refine ⟨?_, ?_, ?_⟩
    · rw [hconf]; exact round2_nonneg hmin0
    · rw [hconf]; exact round2_le_095 (min_le_left _ _)
    · rw [hconf]; simp [h]

/-- C2: with a non-empty tally and a supplied vehicle profile, the
plausibility step replaces the top-5 with its filtered sublist only when that
sublist is non-empty, keeps the unfiltered top-5 otherwise, and the result's
keyword list is never empty. -/
theorem C2_filter_fallback (i : AggInput) (v : VehicleInfo)
    (hv : i.vehicle_info = some v) (h : allKeywords i ≠ []) :
    rankedKeywords i =
      (if (mostCommon 5 (allKeywords i)).filter
            (fun p => filter_diagnosis (p.1 ++ " issue") v.manufacturer v.model v.year) = []
       then mostCommon 5 (allKeywords i)
       else (mostCommon 5 (allKeywords i)).filter
            (fun p => filter_diagnosis (p.1 ++ " issue") v.manufacturer v.model v.year)) ∧
    (aggregate_diagnoses i).keywords = (rankedKeywords i).map Prod.fst ∧
    (aggregate_diagnoses i).keywords ≠ [] := by
  have hb : (allKeywords i).isEmpty = false := isEmpty_false_of_ne_nil h
  have h2 : (aggregate_diagnoses i).keywords = (rankedKeywords i).map Prod.fst := by
    simp [aggregate_diagnoses, hb]
  refine ⟨?_, h2, ?_⟩
  · unfold rankedKeywords
    rw [hv]
    by_cases hf : (mostCommon 5 (allKeywords i)).filter
        (fun p => filter_diagnosis (p.1 ++ " issue") v.manufacturer v.model v.year) = []
    · simp [hf]
    · simp [hf, List.isEmpty_iff]
  · rw [h2]
    simpa using rankedKeywords_ne_nil h

/-- C4 counterexample: a supplied title in which no vocabulary keyword occurs
gives an empty tally, yet the returned sources list is the non-empty audit
list, not the empty list the claim demands. -/
theorem C4_counterexample :
    allKeywords exNoKeyword = [] ∧
    (aggregate_diagnoses exNoKeyword).diagnosis
      = "Unable to determine issue - insufficient data" ∧
    (aggregate_diagnoses exNoKeyword).confidence = 0.3 ∧
    (aggregate_diagnoses exNoKeyword).keywords = [] ∧
    (aggregate_diagnoses exNoKeyword).sources = ["YouTube titles (1)"] ∧
    (aggregate_diagnoses exNoKeyword).sources ≠ [] := by
  refine ⟨by decide, by decide, ?_, by decide, by decide, by decide⟩
  have hb : (allKeywords exNoKeyword).isEmpty = true := by decide
  simp [aggregate_diagnoses, hb]

/-- C4 as amended: on an empty tally the result is the sentinel diagnosis,
confidence 0.3 and empty keyword list, but its sources field is the audit
list of the supplied non-empty collections (empty only when every collection
is absent or empty). -/
theorem C4_sentinel_result (i : AggInput) (h : allKeywords i = []) :
    aggregate_diagnoses i =
      { diagnosis := "Unable to determine issue - insufficient data"
        confidence := 0.3
        sources := sourcesList i
        keywords := []
        keyword_counts := none } := by
  have hb : (allKeywords i).isEmpty = true := by simp [h]
  simp [aggregate_diagnoses, hb]


/-- C4 witness: the sentinel result on the all-absent input. -/
theorem C4_sentinel_witness :
    aggregate_diagnoses exEmpty =
      { diagnosis := "Unable to determine issue - insufficient data"
        confidence := 0.3
        sources := sourcesList exEmpty
        keywords := []
        keyword_counts := none } :=
  C4_sentinel_result exEmpty (by decide)

/-- C10: when no vehicle profile is supplied, no plausibility filtering
happens: the result's keywords are exactly the unfiltered top-5 keywords by
weighted count. -/
theorem C10_no_vehicle_no_filter (i : AggInput) (hv : i.vehicle_info = none)
    (h : allKeywords i ≠ []) :
    (aggregate_diagnoses i).keywords = (mostCommon 5 (allKeywords i)).map Prod.fst := by
  have hb : (allKeywords i).isEmpty = false := isEmpty_false_of_ne_nil h
  have hr : rankedKeywords i = mostCommon 5 (allKeywords i) := by
    unfold rankedKeywords
    rw [hv]
  simp [aggregate_diagnoses, hb, hr]


/-- C10 witness: with no vehicle profile the turbo keyword survives
unfiltered. -/
theorem C10_witness :
    (aggregate_diagnoses exTurboNoVehicle).keywords
      = (mostCommon 5 (allKeywords exTurboNoVehicle)).map Prod.fst :=
  C10_no_vehicle_no_filter exTurboNoVehicle rfl (by decide)


/-- C2 witness: Toyota Corolla 2015 with only "turbo" as candidate keeps the
unfiltered list. -/
theorem C2_witness :
    rankedKeywords exTurboCorolla =
      (if (mostCommon 5 (allKeywords exTurboCorolla)).filter
            (fun p => filter_diagnosis (p.1 ++ " issue") "Toyota" "Corolla" 2015) = []
       then mostCommon 5 (allKeywords exTurboCorolla)
       else (mostCommon 5 (allKeywords exTurboCorolla)).filter
            (fun p => filter_diagnosis (p.1 ++ " issue") "Toyota" "Corolla" 2015)) ∧
    (aggregate_diagnoses exTurboCorolla).keywords
      = (rankedKeywords exTurboCorolla).map Prod.fst ∧
    (aggregate_diagnoses exTurboCorolla).keywords ≠ [] :=
  C2_filter_fallback exTurboCorolla
    { manufacturer := "Toyota", model := "Corolla", year := 2015 } rfl (by decide)

/-- C3 counterexample: the two inputs differ only by swapping the two titles,
yet the diagnosis strings differ (tie-break follows first occurrence in the
scan, which item order inside a collection changes). -/
theorem C3_counterexample :
    (optTexts exBrakeEngine.youtube_titles).Perm (optTexts exEngineBrake.youtube_titles) ∧
    exBrakeEngine.youtube_descriptions = exEngineBrake.youtube_descriptions ∧
    exBrakeEngine.youtube_comments = exEngineBrake.youtube_comments ∧
    exBrakeEngine.youtube_transcripts = exEngineBrake.youtube_transcripts ∧
    exBrakeEngine.spectrogram_match = exEngineBrake.spectrogram_match ∧
    exBrakeEngine.ai_diagnosis = exEngineBrake.ai_diagnosis ∧
    exBrakeEngine.vehicle_info = exEngineBrake.vehicle_info ∧
    (aggregate_diagnoses exBrakeEngine).diagnosis
      ≠ (aggregate_diagnoses exEngineBrake).diagnosis := by
  refine ⟨?_, rfl, rfl, rfl, rfl, rfl, rfl, by decide⟩
  exact List.Perm.swap "engine" "brake" []

/-- C3 as amended: permuting the entries inside the four text collections
leaves the weighted tally of every keyword unchanged; the top-5 selection,
`keyword_counts` and the diagnosis string may still change when weighted
counts tie, because ranking breaks ties by first occurrence in the scan. -/
theorem C3_tally_perm_invariant (i j : AggInput)
    (ht : (optTexts i.youtube_titles).Perm (optTexts j.youtube_titles))
    (hd : (optTexts i.youtube_descriptions).Perm (optTexts j.youtube_descriptions))
    (hc : (optTexts i.youtube_comments).Perm (optTexts j.youtube_comments))
    (htr : (optTexts i.youtube_transcripts).Perm (optTexts j.youtube_transcripts))
    (hs : i.spectrogram_match = j.spectrogram_match)
    (ha : i.ai_diagnosis = j.ai_diagnosis)
    (k : String) :
    weightedTally i k = weightedTally j k := by
  unfold weightedTally allKeywords kwContrib
  rw [hs, ha]
  have h1 := (List.Perm.flatMap_right extract_keywords ht).count_eq k
  have h2 := (List.Perm.flatMap_right extract_keywords hd).count_eq k
  have h3 := (List.Perm.flatMap_right extract_keywords hc).count_eq k
  have h4 := (List.Perm.flatMap_right extract_keywords htr).count_eq k
  simp only [List.count_append]
  omega

/-- C3 witness: the tally of "brake" agrees across the swapped-title pair. -/
theorem C3_tally_witness :
    weightedTally exBrakeEngine "brake" = weightedTally exEngineBrake "brake" :=
  C3_tally_perm_invariant exBrakeEngine exEngineBrake
    (List.Perm.swap "engine" "brake" []) (List.Perm.refl _) (List.Perm.refl _)
    (List.Perm.refl _) rfl rfl "brake"

/-- C5: with a non-empty tally, the diagnosis names only the top keyword when
a single candidate survives or the second count is below 60% of the top
count, and names both keywords when the second count reaches 60% of the top
count (the source condition `second_count >= top_count * 0.6`). -/
theorem C5_diagnosis_composition (i : AggInput) (h : allKeywords i ≠ []) :
    ((rankedKeywords i).length = 1 ∨
        ¬ secondAtLeast60 ((rankedKeywords i).headD ("", 0)).2
            ((rankedKeywords i).getD 1 ("", 0)).2 →
      (aggregate_diagnoses i).diagnosis =
        "Likely " ++ ((rankedKeywords i).headD ("", 0)).1 ++ " issue detected") ∧
    (1 < (rankedKeywords i).length ∧
        secondAtLeast60 ((rankedKeywords i).headD ("", 0)).2
            ((rankedKeywords i).getD 1 ("", 0)).2 →
      (aggregate_diagnoses i).diagnosis =
        "Likely " ++ ((rankedKeywords i).headD ("", 0)).1 ++ " or "
          ++ ((rankedKeywords i).getD 1 ("", 0)).1 ++ " issue detected") := by
  have hb : (allKeywords i).isEmpty = false := isEmpty_false_of_ne_nil h
  have hlen1 : 1 ≤ (rankedKeywords i).length :=
    List.length_pos.mpr (rankedKeywords_ne_nil h)
  have hd : (aggregate_diagnoses i).diagnosis =
      (if 1 < (rankedKeywords i).length then
        (if secondAtLeast60 ((rankedKeywords i).headD ("", 0)).2
            ((rankedKeywords i).getD 1 ("", 0)).2 then
          "Likely " ++ ((rankedKeywords i).headD ("", 0)).1 ++ " or "
            ++ ((rankedKeywords i).getD 1 ("", 0)).1 ++ " issue detected"
        else "Likely " ++ ((rankedKeywords i).headD ("", 0)).1 ++ " issue detected")
      else "Likely " ++ ((rankedKeywords i).headD ("", 0)).1 ++ " issue detected") := by
    simp [aggregate_diagnoses, hb]
  constructor
  · rintro (h1 | h1)
    · rw [hd, h1]
      norm_num
    · rw [hd]
      by_cases hlen : 1 < (rankedKeywords i).length
      · rw [if_pos hlen, if_neg h1]
      · rw [if_neg hlen]
  · rintro ⟨h1, h2⟩
    rw [hd, if_pos h1, if_pos h2]


set_option maxRecDepth 40000 in
/-- C5 witness: counts 5 and 3 (ratio exactly 0.6) name both keywords; counts
100 and 59 (ratio 0.59) name only the top keyword. -/
theorem C5_witness :
    (aggregate_diagnoses exRatio60).diagnosis = "Likely brake or engine issue detected" ∧
    (aggregate_diagnoses exRatio59).diagnosis = "Likely brake issue detected" := by
  constructor
  · exact (C5_diagnosis_composition exRatio60 (by decide)).2 ⟨by decide, by decide⟩
  · exact (C5_diagnosis_composition exRatio59 (by decide)).1 (Or.inr (by decide))

/-- C9: the aggregation core is total by construction in this model; in
addition, empty text extracts to the empty keyword list rather than failing,
and whenever the division by the total weighted mentions is reached (the
tally is non-empty) the divisor is at least 1. -/
theorem C9_no_failure :
    (∀ t : String, t.toList = [] → extract_keywords t = []) ∧
    (∀ i : AggInput, allKeywords i ≠ [] → 1 ≤ totalMentions i) := by
  constructor
  · intro t ht
    have ht2 : t.data = [] := ht
    unfold extract_keywords
    simp [String.toList, ht2]
  · intro i h
    exact one_le_totalMentions h

/-- C9 witness: the empty string extracts to no keywords, and a matching
input has a positive divisor. -/
theorem C9_witness : extract_keywords "" = [] ∧ 1 ≤ totalMentions exBrakeEngine :=
  ⟨C9_no_failure.1 "" rfl, C9_no_failure.2 exBrakeEngine (by decide)⟩

/-- C6: `has_turbo` returns true exactly when the manufacturer is one of BMW,
Audi, Mercedes-Benz, Volkswagen with year at least 2016, or the model
contains (case-insensitively) an entry of the manufacturer's known-turbo
table, or the model contains one of the generic keywords turbo, tsi, tfsi,
ecoboost, tdi, gti. -/
theorem C6_has_turbo_iff (manufacturer model : String) (year : Int) :
    has_turbo manufacturer model year = true ↔
      ((manufacturer ∈ (["BMW", "Audi", "Mercedes-Benz", "Volkswagen"] : List String)
          ∧ 2016 ≤ year) ∨
        modelTableHit manufacturer model = true ∨
        genericTurboHit model = true) := by
  unfold has_turbo
  by_cases h1 : 2016 ≤ year <;>
    by_cases h2 : manufacturer ∈ (["BMW", "Audi", "Mercedes-Benz", "Volkswagen"] : List String) <;>
      by_cases h3 : modelTableHit manufacturer model = true <;>
        by_cases h4 : genericTurboHit model = true <;>
          simp [h1, h2, h3, h4]

/-- C7: replacing one weight-2 spectrogram string by two weight-1 titles that
extract the same single keyword leaves that keyword's weighted tally
unchanged, and when no other source mentions the keyword both runs tally it
at exactly 2. -/
theorem C7_weight_equivalence (i : AggInput) (k s t1 t2 : String)
    (hsp : i.spectrogram_match = none)
    (hes : extract_keywords s = [k])
    (he1 : extract_keywords t1 = [k])
    (he2 : extract_keywords t2 = [k]) :
    weightedTally { i with spectrogram_match := some s } k
      = weightedTally { i with youtube_titles := some (optTexts i.youtube_titles ++ [t1, t2]) } k ∧
    (weightedTally i k = 0 →
      weightedTally { i with spectrogram_match := some s } k = 2 ∧
      weightedTally { i with youtube_titles := some (optTexts i.youtube_titles ++ [t1, t2]) } k = 2) := by
  have hsne : s.toList.isEmpty = false := by
    cases hst : s.toList.isEmpty
    · rfl
    · exfalso
      have hnil : extract_keywords s = [] := by
        unfold extract_keywords
        rw [hst]
        rfl
      rw [hes] at hnil
      cases hnil
  have hds : (doubleKw (some s)).count k = 2 := by
    simp only [doubleKw]
    rw [hsne]
    simp [hes, List.count_append]
  have hA : weightedTally { i with spectrogram_match := some s } k
      = weightedTally i k + 2 := by
    unfold weightedTally allKeywords
    simp only [List.count_append]
    rw [hsp]
    have h0 : (doubleKw none).count k = 0 := rfl
    rw [hds, h0]
    omega
  have hB : weightedTally { i with youtube_titles := some (optTexts i.youtube_titles ++ [t1, t2]) } k
      = weightedTally i k + 2 := by
    unfold weightedTally allKeywords
    simp only [List.count_append]
    have htail : kwContrib (optTexts (some (optTexts i.youtube_titles ++ [t1, t2])))
        = kwContrib (optTexts i.youtube_titles) ++ (extract_keywords t1 ++ (extract_keywords t2 ++ [])) := by
      unfold kwContrib optTexts
      rw [List.flatMap_append]
      simp [List.flatMap_cons, List.flatMap_nil]
    rw [htail]
    simp only [List.count_append, he1, he2]
    have h1 : ([k] : List String).count k = 1 := by simp
    rw [h1]
    simp only [List.count_nil]
    omega
  refine ⟨by rw [hA, hB], fun h0 => ⟨by rw [hA, h0], by rw [hB, h0]⟩⟩


/-- C7 witness: a spectrogram string "vanos" and two titles "vanos" both
tally the keyword "vanos" at 2 on the empty base input. -/
theorem C7_witness :
    weightedTally { exBase with spectrogram_match := some "vanos" } "vanos"
      = weightedTally { exBase with
          youtube_titles := some (optTexts exBase.youtube_titles ++ ["vanos", "vanos"]) } "vanos" ∧
    (weightedTally exBase "vanos" = 0 →
      weightedTally { exBase with spectrogram_match := some "vanos" } "vanos" = 2 ∧
      weightedTally { exBase with
          youtube_titles := some (optTexts exBase.youtube_titles ++ ["vanos", "vanos"]) } "vanos" = 2) :=
  C7_weight_equivalence exBase "vanos" "vanos" "vanos" "vanos" rfl (by decide) (by decide) (by decide)

theorem audioStep_eq (c : Nat) (af : Option AudioFeatures) :
    audioStep c af = c + energyBonus af + zcrBonus af := by
  rcases af with _ | af <;>
    simp only [audioStep, energyBonus, zcrBonus] <;>
      first
        | (split_ifs <;> omega)
        | omega

theorem youtubeStep_eq (c : Nat) (yd : Option YoutubeData) :
    youtubeStep c yd = c + videoBonus yd + commentsBonus yd + transcriptsBonus yd
      + similarityBonus yd := by
  rcases yd with _ | ⟨tt, cc, tr, bm⟩
  · simp [youtubeStep, videoBonus, commentsBonus, transcriptsBonus, similarityBonus]
  · rcases bm with _ | bm <;>
      simp only [youtubeStep, videoBonus, commentsBonus, transcriptsBonus, similarityBonus] <;>
        split_ifs <;> omega

theorem contextStep_eq (c : Nat) (ec : Option EnhancedContext) :
    contextStep c ec = c + descriptionBonus ec + occurrenceBonus ec := by
  rcases ec with _ | ec <;>
    simp only [contextStep, descriptionBonus, occurrenceBonus] <;>
      first
        | (split_ifs <;> omega)
        | omega

/-- C8: the standalone language-model-path confidence equals base 70 plus the
independent bonuses of the claim (energy, zero-crossing band, tiered video
count, comments, transcripts, similarity tier, user description, occurrence
context), capped at 95. -/
theorem C8_comprehensive_confidence (af : Option AudioFeatures) (yd : Option YoutubeData)
    (ec : Option EnhancedContext) :
    calculate_comprehensive_confidence af yd ec = comprehensiveConfidenceSpec af yd ec := by
  unfold calculate_comprehensive_confidence comprehensiveConfidenceSpec
  rw [audioStep_eq, youtubeStep_eq, contextStep_eq]
  simp only [min_def]
  split_ifs <;> omega
